import Mathlib

/-!
# NEUST Museum backend — verification of the query/mapping contract

Shallow embedding of `src/main.py` (FastAPI handlers) and `src/schemas.py`
(document shapes) of the museum backend, with the storage accessor
(`database.py`, a MongoDB wrapper not present in the sources) modelled from
the specification where needed.  Machine-level conventions:

* A MongoDB document of the `artifact` collection is a `StoredArtifact` with
  every field optional except `_id` (ids are assigned by the store and are
  modelled as their canonical lowercase-hex string rendering).
* HTTP failures (`HTTPException(status_code=s, detail=d)`) are `HErr s d`;
  every handler returns `Except HErr α`.  An uncaught exception inside a
  handler (e.g. a pydantic validation failure) surfaces as a 500.
* MongoDB `$regex` with option `"i"` is modelled for the PCRE fragment in
  which `.` is the wildcard (matching any character except a newline) and
  every other character is a literal; this fragment is faithful for
  patterns that avoid the remaining PCRE metacharacters
  `^ $ * + ? ( ) [ ] \x7b \x7d | \` and for the concrete patterns used in
  the counterexamples below.
-/

set_option maxRecDepth 100000

namespace Museum

/-- An HTTP error: status code plus detail message, the shape of
`HTTPException(status_code=..., detail=...)` in `main.py`. -/
structure HErr where
  status : Nat
  detail : String
deriving DecidableEq, Repr

/-! ## MongoDB `$regex` (case-insensitive fragment) -/

/-- A token of the modelled regex fragment: a literal character or the `.`
wildcard. -/
inductive RTok where
  | lit (c : Char)
  | anyc
deriving DecidableEq, Repr

/-- Parse a pattern string into tokens: `.` becomes the wildcard, every other
character a literal (the fragment models no other metacharacter). -/
def parsePat (p : String) : List RTok :=
  p.data.map (fun c => if c = '.' then RTok.anyc else RTok.lit c)

/-- One token against one subject character, case-insensitively (the code
always passes `$options: "i"`); the wildcard does not match a newline, as in
PCRE without dot-all. -/
def tokMatch : RTok → Char → Bool
  | RTok.anyc, c => !(c = '\n')
  | RTok.lit l, c => l.toLower = c.toLower

/-- The whole token list against the head of the subject. -/
def matchHere : List RTok → List Char → Bool
  | [], _ => true
  | _ :: _, [] => false
  | t :: ts, c :: cs => tokMatch t c && matchHere ts cs

/-- Unanchored search: the token list matches at some offset of the subject. -/
def searchFrom : List RTok → List Char → Bool
  | ts, [] => matchHere ts []
  | ts, c :: cs => matchHere ts (c :: cs) || searchFrom ts cs

/-- MongoDB `\x7b"$regex": pat, "$options": "i"\x7d` on a string value:
case-insensitive unanchored search of the pattern in the value. -/
def regexSearchI (pat : String) (s : String) : Bool :=
  searchFrom (parsePat pat) s.data

/-! ## Case-insensitive substring containment (the spec's wording) -/

/-- `needle` matches at the head of `hay` (plain list equality on a segment). -/
def isSubAt : List Char → List Char → Bool
  | [], _ => true
  | _ :: _, [] => false
  | a :: as, b :: bs => a = b && isSubAt as bs

/-- `needle` occurs as a contiguous segment of `hay`. -/
def subSearch : List Char → List Char → Bool
  | n, [] => isSubAt n []
  | n, c :: cs => isSubAt n (c :: cs) || subSearch n cs

/-- The spec's matching relation: `needle` is a case-insensitive substring of
`hay`. -/
def containsCI (hay needle : String) : Bool :=
  subSearch (needle.data.map Char.toLower) (hay.data.map Char.toLower)

/-! ## Artifact documents and the list/get pipeline -/

/-- A stored document of the `artifact` collection.  `_id` is always present
(assigned by the store); every schema field may be absent, since documents
are created out-of-band and the store enforces no schema. -/
structure StoredArtifact where
  _id : String
  title : Option String
  description : Option String
  image_url : Option String
  period : Option String
  collection : Option String
  tags : Option (List String)
  featured : Option Bool
deriving DecidableEq, Repr

/-- The filter `list_artifacts` builds: `textPattern = some q` stands for the
`$or` of the three `$regex` clauses on `title`, `description` and `tags` with
pattern `q` and option `"i"`; `featured = some b` for the added equality
clause on `featured`. -/
structure ArtifactFilter where
  textPattern : Option String
  featured : Option Bool
deriving DecidableEq, Repr

/-- Filter construction of `list_artifacts` (main.py lines 94—102): `if q:`
is Python truthiness, so `None` and the empty string both skip the `$or`;
`bool(featured)` is the identity on an actual boolean. -/
def buildFilter (q : Option String) (featured : Option Bool) : ArtifactFilter :=
  { textPattern :=
      match q with
      | none => none
      | some s => if s = "" then none else some s
    featured := featured }

/-- A `$regex` clause on an optional string field: an absent field matches
nothing. -/
def optRegexMatch (pat : String) : Option String → Bool
  | none => false
  | some s => regexSearchI pat s

/-- A `$regex` clause on the `tags` array field: MongoDB applies the regex to
each element, so the clause matches when some tag matches; an absent field
matches nothing. -/
def tagsRegexMatch (pat : String) : Option (List String) → Bool
  | none => false
  | some l => l.any (regexSearchI pat)

/-- MongoDB evaluation of the built filter against a stored document. -/
def filterMatches (f : ArtifactFilter) (d : StoredArtifact) : Bool :=
  (match f.textPattern with
   | none => true
   | some pat =>
       optRegexMatch pat d.title || optRegexMatch pat d.description ||
         tagsRegexMatch pat d.tags) &&
  (match f.featured with
   | none => true
   | some b => d.featured = some b)

/-- Modelled from the spec: `database.get_documents` is not under `src/`;
§2 provides "find-many-with-limit" and §4.2 says the list operation "fetches
at most `limit` matching documents in storage-native order", so it returns
the first `limit` documents of the collection (in store order) that satisfy
the filter. -/
def get_documents (coll : List StoredArtifact) (f : ArtifactFilter)
    (limit : Nat) : List StoredArtifact :=
  (coll.filter (filterMatches f)).take limit

/-- The public response shape (`PublicArtifact` in main.py): `title` is a
required `str`, the remaining fields are optional. -/
structure PublicArtifact where
  id : String
  title : String
  description : Option String
  image_url : Option String
  period : Option String
  collection : Option String
  tags : Option (List String)
deriving DecidableEq, Repr

/-- Constructing `PublicArtifact(id=str(d.get("_id")), title=d.get("title"),
...)`: pydantic validates `title: str`, so a document without a title raises
a validation error, which FastAPI surfaces as a 500; all other fields pass
through, absent becoming `None`. -/
def mkPublicArtifact (d : StoredArtifact) : Except HErr PublicArtifact :=
  match d.title with
  | none => .error ⟨500, "Internal Server Error"⟩
  | some t =>
      .ok { id := d._id, title := t, description := d.description,
            image_url := d.image_url, period := d.period,
            collection := d.collection, tags := d.tags }

/-- The mapping loop of `list_artifacts` (lines 104—116): documents are
mapped in order; the first validation failure aborts the whole request. -/
def mapDocs : List StoredArtifact → Except HErr (List PublicArtifact)
  | [] => .ok []
  | d :: ds =>
      match mkPublicArtifact d with
      | .error e => .error e
      | .ok p =>
          match mapDocs ds with
          | .error e => .error e
          | .ok ps => .ok (p :: ps)

/-- `GET /api/artifacts` (main.py lines 90—117).  `configured` is whether the
module-level `db` handle is non-`None`; `coll` is the `artifact` collection
in store order. -/
def list_artifacts (configured : Bool) (coll : List StoredArtifact)
    (q : Option String) (featured : Option Bool) (limit : Nat) :
    Except HErr (List PublicArtifact) :=
  if configured = false then .error ⟨500, "Database not configured"⟩
  else mapDocs (get_documents coll (buildFilter q featured) limit)

/-- A hexadecimal digit, either case (what `bson.ObjectId` accepts per
position). -/
def isHexChar (c : Char) : Bool :=
  ('0' ≤ c && c ≤ '9') || ('a' ≤ c && c ≤ 'f') || ('A' ≤ c && c ≤ 'F')

/-- `ObjectId(s)` succeeds on a string exactly when it is 24 hexadecimal
characters; anything else raises `InvalidId`. -/
def isValidObjectId (s : String) : Bool :=
  s.length = 24 && s.data.all isHexChar

/-- The canonical rendering `str(ObjectId(s))` of a valid id string: its
lowercase form (stored `_id`s are kept in this canonical form, so MongoDB's
byte-wise ObjectId equality is string equality with it). -/
def canonOid (s : String) : String :=
  ⟨s.data.map Char.toLower⟩

/-- `GET /api/artifacts/{artifact_id}` (main.py lines 120—139). -/
def get_artifact (configured : Bool) (coll : List StoredArtifact)
    (artifact_id : String) : Except HErr PublicArtifact :=
  if configured = false then .error ⟨500, "Database not configured"⟩
  else if isValidObjectId artifact_id = false then
    .error ⟨400, "Invalid artifact id"⟩
  else
    match coll.find? (fun d => d._id = canonOid artifact_id) with
    | none => .error ⟨404, "Artifact not found"⟩
    | some d => mkPublicArtifact d

/-! ## SHA-256 and `hash_password`

`hash_password(raw)` in main.py is
`hashlib.sha256(raw.encode("utf-8")).hexdigest()`.  The full algorithm is
embedded: UTF-8 encoding, FIPS 180-4 SHA-256 over byte lists (bytes and
32-bit words are `Nat` with explicit reduction mod `2^32`/`2^8`), lowercase
hexadecimal rendering. -/

/-- Reduce to a 32-bit word. -/
def w32 (n : Nat) : Nat := n % 4294967296

/-- Right rotation of a 32-bit word by `b` bits. -/
def rotr (b x : Nat) : Nat := w32 ((x >>> b) ||| (x <<< (32 - b)))

/-- Bitwise complement within 32 bits. -/
def comp32 (x : Nat) : Nat := x ^^^ 4294967295

/-- SHA-256 `Ch`. -/
def chF (x y z : Nat) : Nat := (x &&& y) ^^^ (comp32 x &&& z)

/-- SHA-256 `Maj`. -/
def majF (x y z : Nat) : Nat := (x &&& y) ^^^ (x &&& z) ^^^ (y &&& z)

/-- SHA-256 `Σ0`. -/
def bsig0 (x : Nat) : Nat := rotr 2 x ^^^ rotr 13 x ^^^ rotr 22 x

/-- SHA-256 `Σ1`. -/
def bsig1 (x : Nat) : Nat := rotr 6 x ^^^ rotr 11 x ^^^ rotr 25 x

/-- SHA-256 `σ0`. -/
def ssig0 (x : Nat) : Nat := rotr 7 x ^^^ rotr 18 x ^^^ (x >>> 3)

/-- SHA-256 `σ1`. -/
def ssig1 (x : Nat) : Nat := rotr 17 x ^^^ rotr 19 x ^^^ (x >>> 10)

/-- The 64 SHA-256 round constants (FIPS 180-4 §4.2.2, here in decimal). -/
def kConst : List Nat :=
  [1116352408, 1899447441, 3049323471, 3921009573,
   961987163, 1508970993, 2453635748, 2870763221,
   3624381080, 310598401, 607225278, 1426881987,
   1925078388, 2162078206, 2614888103, 3248222580,
   3835390401, 4022224774, 264347078, 604807628,
   770255983, 1249150122, 1555081692, 1996064986,
   2554220882, 2821834349, 2952996808, 3210313671,
   3336571891, 3584528711, 113926993, 338241895,
   666307205, 773529912, 1294757372, 1396182291,
   1695183700, 1986661051, 2177026350, 2456956037,
   2730485921, 2820302411, 3259730800, 3345764771,
   3516065817, 3600352804, 4094571909, 275423344,
   430227734, 506948616, 659060556, 883997877,
   958139571, 1322822218, 1537002063, 1747873779,
   1955562222, 2024104815, 2227730452, 2361852424,
   2428436474, 2756734187, 3204031479, 3329325298]

/-- The eight-word hash state. -/
structure Hash8 where
  h0 : Nat
  h1 : Nat
  h2 : Nat
  h3 : Nat
  h4 : Nat
  h5 : Nat
  h6 : Nat
  h7 : Nat
deriving DecidableEq, Repr

/-- The SHA-256 initial hash value (FIPS 180-4 §5.3.3, in decimal). -/
def initH : Hash8 :=
  ⟨1779033703, 3144134277, 1013904242, 2773480762,
   1359893119, 2600822924, 528734635, 1541459225⟩

/-- UTF-8 encoding of one character (code point to 1—4 bytes). -/
def utf8EncodeChar (c : Char) : List Nat :=
  let n := c.toNat
  if n < 128 then [n]
  else if n < 2048 then [192 + n / 64, 128 + n % 64]
  else if n < 65536 then
    [224 + n / 4096, 128 + (n / 64) % 64, 128 + n % 64]
  else
    [240 + n / 262144, 128 + (n / 4096) % 64, 128 + (n / 64) % 64,
     128 + n % 64]

/-- `raw.encode("utf-8")` as a byte list. -/
def utf8Encode (s : String) : List Nat :=
  s.data.flatMap utf8EncodeChar

/-- The 8-byte big-endian rendering of the message bit length. -/
def lenBytes64 (n : Nat) : List Nat :=
  [(n >>> 56) % 256, (n >>> 48) % 256, (n >>> 40) % 256, (n >>> 32) % 256,
   (n >>> 24) % 256, (n >>> 16) % 256, (n >>> 8) % 256, n % 256]

/-- SHA-256 padding: append `0x80`, zero bytes to 56 mod 64, then the bit
length, making the total length a multiple of 64 bytes. -/
def shaPad (msg : List Nat) : List Nat :=
  let l := msg.length
  msg ++ [128] ++ List.replicate ((119 - l % 64) % 64) 0 ++ lenBytes64 (8 * l)

/-- Big-endian 4-byte groups to 32-bit words. -/
def bytesToWords : List Nat → List Nat
  | a :: b :: c :: d :: rest =>
      (a * 16777216 + b * 65536 + c * 256 + d) :: bytesToWords rest
  | _ => []

/-- Group a word list into 16-word blocks (`n` counts the room left in the
current group; called with `n = 16` and a list whose length is a multiple of
16). -/
def chunksAux : List Nat → List Nat → Nat → List (List Nat)
  | [], acc, _ => if acc.isEmpty then [] else [acc.reverse]
  | w :: ws, acc, 0 => acc.reverse :: chunksAux ws [w] 15
  | w :: ws, acc, n + 1 => chunksAux ws (w :: acc) n

/-- One step of the message-schedule extension: append
`σ1(w[t-2]) + w[t-7] + σ0(w[t-15]) + w[t-16]` for the current length `t`. -/
def extendStep (w : List Nat) : List Nat :=
  let t := w.length
  w ++ [w32 (ssig1 (w.getD (t - 2) 0) + w.getD (t - 7) 0 +
             ssig0 (w.getD (t - 15) 0) + w.getD (t - 16) 0)]

/-- Iterate the extension `n` times. -/
def extendLoop : Nat → List Nat → List Nat
  | 0, w => w
  | n + 1, w => extendLoop n (extendStep w)

/-- The 64-word message schedule of a 16-word block. -/
def schedule (block : List Nat) : List Nat := extendLoop 48 block

/-- One compression round, fed the pair `(k_t, w_t)`. -/
def roundStep (st : Hash8) (kw : Nat × Nat) : Hash8 :=
  let t1 := w32 (st.h7 + bsig1 st.h4 + chF st.h4 st.h5 st.h6 + kw.1 + kw.2)
  let t2 := w32 (bsig0 st.h0 + majF st.h0 st.h1 st.h2)
  ⟨w32 (t1 + t2), st.h0, st.h1, st.h2, w32 (st.h3 + t1), st.h4, st.h5, st.h6⟩

/-- Compress one 16-word block into the running hash state. -/
def compressBlock (st : Hash8) (block : List Nat) : Hash8 :=
  let v := (kConst.zip (schedule block)).foldl roundStep st
  ⟨w32 (st.h0 + v.h0), w32 (st.h1 + v.h1), w32 (st.h2 + v.h2),
   w32 (st.h3 + v.h3), w32 (st.h4 + v.h4), w32 (st.h5 + v.h5),
   w32 (st.h6 + v.h6), w32 (st.h7 + v.h7)⟩

/-- Big-endian bytes of a 32-bit word. -/
def wordBytes (w : Nat) : List Nat :=
  [(w >>> 24) % 256, (w >>> 16) % 256, (w >>> 8) % 256, w % 256]

/-- The 32 digest bytes of a final hash state. -/
def digestBytes (st : Hash8) : List Nat :=
  wordBytes st.h0 ++ wordBytes st.h1 ++ wordBytes st.h2 ++ wordBytes st.h3 ++
  wordBytes st.h4 ++ wordBytes st.h5 ++ wordBytes st.h6 ++ wordBytes st.h7

/-- SHA-256 of a byte list: pad, split into blocks, compress, emit. -/
def sha256 (msg : List Nat) : List Nat :=
  digestBytes
    ((chunksAux (bytesToWords (shaPad msg)) [] 16).foldl compressBlock initH)

/-- The 16 lowercase hexadecimal digit characters, indexed mod 16. -/
def hexDigitChar (n : Nat) : Char :=
  "0123456789abcdef".data.getD (n % 16) '0'

/-- Two lowercase hex characters of one byte. -/
def byteHex (b : Nat) : List Char :=
  [hexDigitChar (b / 16), hexDigitChar b]

/-- `hexdigest()`: lowercase hexadecimal rendering of a byte list. -/
def hexOfBytes (bs : List Nat) : String :=
  ⟨bs.flatMap byteHex⟩

/-- `hash_password` (main.py lines 142—143): SHA-256 of the UTF-8 encoding,
as lowercase hex. -/
def hash_password (raw : String) : String :=
  hexOfBytes (sha256 (utf8Encode raw))

/-! ## User accounts: signup and signin -/

/-- A stored document of the `useraccount` collection.  Per the data model
(§3, lifecycle: "created by signup"), every such document carries the fields
the signup write path supplies. -/
structure UserDoc where
  _id : String
  name : String
  email : String
  password_hash : String
  role : String
  is_active : Bool
deriving DecidableEq, Repr

/-- The identity payload both auth endpoints return:
`\x7b"id", "name", "email"\x7d`. -/
structure AuthResp where
  id : String
  name : String
  email : String
deriving DecidableEq, Repr

/-- `POST /api/auth/signup` (main.py lines 146—159) as a state transition on
the `useraccount` collection.  `newId` is the id the store assigns on
insert; the insert itself (`database.create_document`, not under `src/`) is
modelled from the spec: §2 provides "insert-one" and §4.3 step 4 inserts a
new account document with `role = "user"` and `is_active = true`, returning
the new id. -/
def signup (configured : Bool) (coll : List UserDoc)
    (nm em pw newId : String) : Except HErr AuthResp × List UserDoc :=
  if configured = false then (.error ⟨500, "Database not configured"⟩, coll)
  else
    match coll.find? (fun u => u.email = em) with
    | some _ => (.error ⟨400, "Email already registered"⟩, coll)
    | none =>
        let u : UserDoc :=
          ⟨newId, nm, em, hash_password pw, "user", true⟩
        (.ok ⟨newId, nm, em⟩, coll ++ [u])

/-- `POST /api/auth/signin` (main.py lines 162—169). -/
def signin (configured : Bool) (coll : List UserDoc) (em pw : String) :
    Except HErr AuthResp :=
  if configured = false then .error ⟨500, "Database not configured"⟩
  else
    match coll.find? (fun u => u.email = em) with
    | none => .error ⟨401, "Invalid email or password"⟩
    | some u =>
        if u.password_hash = hash_password pw then .ok ⟨u._id, u.name, u.email⟩
        else .error ⟨401, "Invalid email or password"⟩

/-! ## The diagnostic endpoint -/

/-- The observable state of the storage accessor as `GET /test` probes it:
either the module-level `db` handle is `None`, or it is set, carrying the
database name (`db.name` when the attribute exists) and the outcome of
`db.list_collection_names()` — a collection-name list, or the rendered
message `str(e)` of the exception it raised. -/
inductive DbState where
  | absent
  | ready (name : Option String) (collections : Except String (List String))
deriving Repr

/-- The fixed response shape of `GET /test`. -/
structure TestResponse where
  backend : String
  database : String
  database_url : String
  database_name : String
  connection_status : String
  collections : List String
deriving DecidableEq, Repr

/-- `str(e)[:50]`: the first `n` characters of a string. -/
def strTake (n : Nat) (s : String) : String :=
  ⟨s.data.take n⟩

/-- `GET /test` (main.py lines 172—202).  The inner `try` around
`list_collection_names` renders a failure as
`"⚠️  Connected but Error: " ++ str(e)[:50]`; the final two lines overwrite
`database_url` and `database_name` from the two environment variables
(`envUrl`, `envName` say whether each is set), so the handler always returns
this shape and never raises. -/
def test_database (st : DbState) (envUrl envName : Bool) : TestResponse :=
  let base : TestResponse :=
    { backend := "✅ Running", database := "❌ Not Available",
      database_url := "", database_name := "",
      connection_status := "Not Connected", collections := [] }
  let afterDb : TestResponse :=
    match st with
    | .absent => { base with database := "⚠️  Available but not initialized" }
    | .ready nm outcome =>
        let named : TestResponse :=
          { base with
            database := "✅ Available",
            database_name := nm.getD "✅ Connected",
            connection_status := "Connected" }
        match outcome with
        | .ok ls =>
            { named with
              database := "✅ Connected & Working", collections := ls.take 10 }
        | .error e =>
            { named with
              database := "⚠️  Connected but Error: " ++ strTake 50 e }
  { afterDb with
    database_url := if envUrl then "✅ Set" else "❌ Not Set",
    database_name := if envName then "✅ Set" else "❌ Not Set" }

/-! ## Spec-side predicates and concrete documents -/

/-- The PCRE metacharacters; a pattern avoiding all of them reads as a plain
literal. -/
def isRegexMeta (c : Char) : Bool :=
  c = '.' || c = '^' || c = '$' || c = '*' || c = '+' || c = '?' ||
  c = '(' || c = ')' || c = '[' || c = ']' || c = '\x7b' || c = '\x7d' ||
  c = '|' || c = '\\'

/-- Spec-side clause on one optional text field: the field is present and
contains `q` as a case-insensitive substring. -/
def optContainsCI (q : String) : Option String → Bool
  | none => false
  | some s => containsCI s q

/-- The spec's text-matching relation, word for word: the document's
`title`, `description`, or any tag contains `q` as a case-insensitive
substring (logical OR across the three fields). -/
def specTextMatch (q : String) (d : StoredArtifact) : Bool :=
  optContainsCI q d.title || optContainsCI q d.description ||
  (match d.tags with
   | none => false
   | some l => l.any (fun t => containsCI t q))

/-- The spec's featured clause: when the parameter is supplied, the
document's `featured` field equals it. -/
def specFeatured (f : Option Bool) (d : StoredArtifact) : Bool :=
  match f with
  | none => true
  | some b => d.featured = some b

/-- A lowercase hexadecimal digit. -/
def isLowerHexDigit (c : Char) : Bool :=
  ('0' ≤ c && c ≤ '9') || ('a' ≤ c && c ≤ 'f')

/-- A stored artifact whose title is "ab": its title contains no `.` yet the
regex pattern "." finds a match in it. -/
def dotDoc : StoredArtifact :=
  ⟨"aaaaaaaaaaaaaaaaaaaaaaaa", some "ab", none, none, none, none, none, none⟩

/-- A stored artifact without a `title` field. -/
def noTitleDoc : StoredArtifact :=
  ⟨"bbbbbbbbbbbbbbbbbbbbbbbb", none, some "a description", none, none, none,
   none, some false⟩

/-- A stored artifact whose title contains "ab" case-insensitively and whose
`featured` field is `true`. -/
def wArtifact : StoredArtifact :=
  ⟨"cccccccccccccccccccccccc", some "xABy", none, none, none, none,
   some ["old", "rare"], some true⟩

/-- A complete stored artifact matching the canonical form of the valid id
`"0123456789ABCDEFabcdef01"`. -/
def foundDoc : StoredArtifact :=
  ⟨"0123456789abcdefabcdef01", some "Vase", some "clay", none, some "1200",
   some "Ceramics", some ["clay"], some true⟩

/-- A registered account whose password is "right". -/
def u0 : UserDoc :=
  ⟨"dddddddddddddddddddddddd", "Ann", "a@x.com", hash_password "right",
   "user", true⟩

/-! ## Helper lemmas -/

/-- Implementation check against the FIPS/NIST test vector for "abc". -/
theorem sha256_vector_abc :
    hash_password "abc" =
      "ba7816bf8f01cfea414140de5dae2223b00361a396177a9cb410ff61f20015ad" := by
  decide

/-- Implementation check against the test vector for the empty message. -/
theorem sha256_vector_empty :
    hash_password "" =
      "e3b0c44298fc1c149afbf4c8996fb92427ae41e4649b934ca495991b7852b855" := by
  decide

/-- Every output of `hexDigitChar` is a lowercase hex digit. -/
theorem hexDigitChar_hex (n : Nat) : isLowerHexDigit (hexDigitChar n) = true := by
  have hall : ∀ m, m < 16 →
      isLowerHexDigit ("0123456789abcdef".data.getD m '0') = true := by decide
  exact hall (n % 16) (Nat.mod_lt _ (by decide))

/-- The hex rendering of one byte is two characters. -/
theorem byteHex_length (b : Nat) : (byteHex b).length = 2 := rfl

/-- Both characters of a byte's hex rendering are lowercase hex digits. -/
theorem byteHex_hex (b : Nat) : (byteHex b).all isLowerHexDigit = true := by
  simp [byteHex, hexDigitChar_hex]

/-- Hex rendering doubles the length of a byte list. -/
theorem flatMap_byteHex_length (bs : List Nat) :
    (bs.flatMap byteHex).length = 2 * bs.length := by
  induction bs with
  | nil => rfl
  | cons b bs ih => simp [List.flatMap_cons, ih, byteHex_length]; omega

/-- Every character of a hex-rendered byte list is a lowercase hex digit. -/
theorem flatMap_byteHex_all (bs : List Nat) :
    (bs.flatMap byteHex).all isLowerHexDigit = true := by
  induction bs with
  | nil => rfl
  | cons b bs ih => simp [List.flatMap_cons, List.all_append, ih, byteHex_hex]

/-- A digest is 32 bytes, whatever the final state. -/
theorem digestBytes_length (st : Hash8) : (digestBytes st).length = 32 := by
  simp [digestBytes, wordBytes]

/-- SHA-256 always emits 32 bytes. -/
theorem sha256_length (msg : List Nat) : (sha256 msg).length = 32 :=
  digestBytes_length _

/-- A successful mapping preserves the number of documents. -/
theorem mapDocs_ok_length (ds : List StoredArtifact) :
    ∀ ps, mapDocs ds = Except.ok ps → ps.length = ds.length := by
  induction ds with
  | nil =>
      intro ps h
      simp [mapDocs] at h
      simp [← h]
  | cons d ds ih =>
      intro ps h
      cases hm : mkPublicArtifact d with
      | error e => simp [mapDocs, hm] at h
      | ok p =>
          cases hds : mapDocs ds with
          | error e => simp [mapDocs, hm, hds] at h
          | ok ps2 =>
              simp [mapDocs, hm, hds] at h
              simp [← h, ih ps2 hds]

/-- `find?` over an append looks at the left part first. -/
theorem find?_append_left_none {α : Type} (p : α → Bool) (l1 l2 : List α)
    (h : l1.find? p = none) : (l1 ++ l2).find? p = l2.find? p := by
  induction l1 with
  | nil => rfl
  | cons a l1 ih =>
      cases hp : p a with
      | true =>
          rw [List.find?_cons_of_pos _ hp] at h
          exact absurd h (by simp)
      | false =>
          have hp' : ¬ p a = true := by simp [hp]
          rw [List.find?_cons_of_neg _ hp'] at h
          rw [List.cons_append, List.find?_cons_of_neg _ hp']
          exact ih h

/-- An all-literal token list matches at the head exactly when the
lower-cased pattern is an initial segment of the lower-cased subject. -/
theorem matchHere_lit_eq (qs : List Char) :
    ∀ cs, matchHere (qs.map RTok.lit) cs =
      isSubAt (qs.map Char.toLower) (cs.map Char.toLower) := by
  induction qs with
  | nil => intro cs; rfl
  | cons q qs ih =>
      intro cs
      cases cs with
      | nil => rfl
      | cons c cs' => simp [matchHere, isSubAt, tokMatch, ih cs']

/-- An all-literal token list searches exactly as case-insensitive substring
containment. -/
theorem searchFrom_lit_eq (qs : List Char) :
    ∀ cs, searchFrom (qs.map RTok.lit) cs =
      subSearch (qs.map Char.toLower) (cs.map Char.toLower) := by
  intro cs
  induction cs with
  | nil => simpa [searchFrom, subSearch] using matchHere_lit_eq qs []
  | cons c cs' ih =>
      simp [searchFrom, subSearch, matchHere_lit_eq, ih]

/-- A pattern without metacharacters parses to all-literal tokens. -/
theorem parsePat_no_meta (q : String)
    (h : q.data.all (fun c => !(isRegexMeta c)) = true) :
    parsePat q = q.data.map RTok.lit := by
  unfold parsePat
  apply List.map_congr_left
  intro c hc
  have hm : isRegexMeta c = false := by
    have := List.all_eq_true.mp h c hc
    simpa using this
  have hdot : ¬ (c = '.') := by
    intro he
    subst he
    simp [isRegexMeta] at hm
  simp [hdot]

/-- On a metacharacter-free pattern, the modelled `$regex` search is exactly
the spec's case-insensitive substring containment. -/
theorem regexSearchI_no_meta (q s : String)
    (h : q.data.all (fun c => !(isRegexMeta c)) = true) :
    regexSearchI q s = containsCI s q := by
  unfold regexSearchI containsCI
  rw [parsePat_no_meta q h, searchFrom_lit_eq]

/-! ## Claim theorems -/

/-- C1 (counterexample): the pattern "." is not a substring of the title
"ab", yet the built filter matches the document — the raw query string is
interpreted as a regular expression, not as a literal substring, so the
filter does not match exactly the substring-containment documents. -/
theorem list_filter_regex_dot_cex :
    filterMatches (buildFilter (some ".") none) dotDoc = true ∧
    (specTextMatch "." dotDoc && specFeatured none dotDoc) = false := by
  decide

/-- C1 (amended): for every non-empty query string free of regex
metacharacters, the filter built by the list operation matches exactly the
documents whose title, description, or some tag contains the query as a
case-insensitive substring, AND-ed with the featured equality clause when
that parameter is supplied. -/
theorem list_filter_substring_of_no_meta (q : String) (f : Option Bool)
    (d : StoredArtifact) (hq : ¬ q = "")
    (hmeta : q.data.all (fun c => !(isRegexMeta c)) = true) :
    filterMatches (buildFilter (some q) f) d =
      (specTextMatch q d && specFeatured f d) := by
  have hfun : regexSearchI q = fun s => containsCI s q :=
    funext fun s => regexSearchI_no_meta q s hmeta
  simp only [buildFilter, if_neg hq]
  cases ht : d.title <;> cases hd : d.description <;> cases htg : d.tags <;>
    cases f <;>
      simp [filterMatches, specTextMatch, specFeatured, optRegexMatch,
        tagsRegexMatch, optContainsCI, hfun, ht, hd, htg]

/-- C1 (witness): the metacharacter-free query "ab" matches the document
titled "xABy" (with `featured = true` required and present), and the filter
agrees with the spec-side predicate there. -/
theorem list_filter_substring_of_no_meta_witness :
    filterMatches (buildFilter (some "ab") (some true)) wArtifact = true ∧
    (specTextMatch "ab" wArtifact && specFeatured (some true) wArtifact)
      = true ∧
    filterMatches (buildFilter (some "ab") (some true)) wArtifact =
      (specTextMatch "ab" wArtifact && specFeatured (some true) wArtifact) :=
  ⟨by decide, by decide,
   list_filter_substring_of_no_meta "ab" (some true) wArtifact (by decide)
     (by decide)⟩

/-- C2: with the store configured, a malformed id fails with 400
invalid-id (a different error from 404 not-found), a well-formed id with no
matching document fails with 404 not-found, and a match returns the mapped
public shape. -/
theorem get_artifact_error_discipline (coll : List StoredArtifact)
    (aid : String) :
    (isValidObjectId aid = false →
      get_artifact true coll aid =
        Except.error ⟨400, "Invalid artifact id"⟩) ∧
    ((⟨400, "Invalid artifact id"⟩ : HErr) ≠ ⟨404, "Artifact not found"⟩) ∧
    (isValidObjectId aid = true →
      coll.find? (fun d => d._id = canonOid aid) = none →
      get_artifact true coll aid =
        Except.error ⟨404, "Artifact not found"⟩) ∧
    (∀ d, isValidObjectId aid = true →
      coll.find? (fun d => d._id = canonOid aid) = some d →
      get_artifact true coll aid = mkPublicArtifact d) := by
  refine ⟨?_, by decide, ?_, ?_⟩
  · intro hv
    simp [get_artifact, hv]
  · intro hv hf
    simp [get_artifact, hv, hf]
  · intro d hv hf
    simp [get_artifact, hv, hf]

/-- C2 (witness): "not-an-id" yields 400, a valid unknown id yields 404, and
the id of `foundDoc` (in mixed case) yields its mapped shape. -/
theorem get_artifact_error_discipline_witness :
    get_artifact true [] "not-an-id" =
      Except.error ⟨400, "Invalid artifact id"⟩ ∧
    get_artifact true [] "0123456789ABCDEFabcdef01" =
      Except.error ⟨404, "Artifact not found"⟩ ∧
    get_artifact true [foundDoc] "0123456789ABCDEFabcdef01" =
      mkPublicArtifact foundDoc :=
  ⟨(get_artifact_error_discipline [] "not-an-id").1 (by decide),
   (get_artifact_error_discipline [] "0123456789ABCDEFabcdef01").2.2.1
     (by decide) rfl,
   (get_artifact_error_discipline [foundDoc] "0123456789ABCDEFabcdef01").2.2.2
     foundDoc (by decide) (by decide)⟩

/-- C3: whenever no account matches the email, or the matching account's
stored digest differs from the digest of the submitted password, signin
fails with the one same 401 error, so the two causes are indistinguishable
to the caller. -/
theorem signin_uniform_invalid_credentials (coll : List UserDoc)
    (em pw : String)
    (h : ∀ u, coll.find? (fun x => x.email = em) = some u →
      ¬ u.password_hash = hash_password pw) :
    signin true coll em pw = Except.error ⟨401, "Invalid email or password"⟩ := by
  cases hf : coll.find? (fun x => x.email = em) with
  | none => simp [signin, hf]
  | some u => simp [signin, hf, h u hf]

/-- C3 (witness): a never-registered email and a wrong password for a
registered account produce the identical 401 error value. -/
theorem signin_uniform_invalid_credentials_witness :
    signin true [u0] "nobody@x.com" "right" =
      Except.error ⟨401, "Invalid email or password"⟩ ∧
    signin true [u0] "a@x.com" "wrong" =
      Except.error ⟨401, "Invalid email or password"⟩ := by
  constructor
  · refine signin_uniform_invalid_credentials [u0] "nobody@x.com" "right" ?_
    intro u hu
    have hnone : List.find? (fun x => x.email = "nobody@x.com") [u0] = none := by
      decide
    rw [hnone] at hu
    exact absurd hu (by simp)
  · refine signin_uniform_invalid_credentials [u0] "a@x.com" "wrong" ?_
    intro u hu
    have hsome : List.find? (fun x => x.email = "a@x.com") [u0] = some u0 := by
      decide
    rw [hsome] at hu
    rw [← Option.some.inj hu]
    decide

/-- C4: a signup whose email already has a matching account fails with the
400 duplicate-email error and leaves the collection unchanged. -/
theorem signup_duplicate_email_no_insert (coll : List UserDoc)
    (nm em pw newId : String) (u : UserDoc)
    (hfind : coll.find? (fun x => x.email = em) = some u) :
    signup true coll nm em pw newId =
      (Except.error ⟨400, "Email already registered"⟩, coll) := by
  simp [signup, hfind]

/-- C4 (witness): signing up again with `u0`'s email fails with 400 and the
collection still holds exactly `u0`. -/
theorem signup_duplicate_email_no_insert_witness :
    signup true [u0] "Bob" "a@x.com" "pw" "eeeeeeeeeeeeeeeeeeeeeeee" =
      (Except.error ⟨400, "Email already registered"⟩, [u0]) :=
  signup_duplicate_email_no_insert [u0] "Bob" "a@x.com" "pw"
    "eeeeeeeeeeeeeeeeeeeeeeee" u0 (by decide)

/-- C5: the password digest is SHA-256 of the UTF-8 encoding of the
plaintext, rendered as lowercase hexadecimal — a fixed-size 64-character hex
digest. -/
theorem hash_password_sha256_hex (raw : String) :
    hash_password raw = hexOfBytes (sha256 (utf8Encode raw)) ∧
    (hash_password raw).length = 64 ∧
    (hash_password raw).data.all isLowerHexDigit = true := by
  refine ⟨rfl, ?_, ?_⟩
  · show ((sha256 (utf8Encode raw)).flatMap byteHex).length = 64
    rw [flatMap_byteHex_length, sha256_length]
  · show ((sha256 (utf8Encode raw)).flatMap byteHex).all isLowerHexDigit = true
    exact flatMap_byteHex_all _

/-- C6: the list operation never returns more results than `limit`, for any
query, featured flag, collection contents, or configuration state. -/
theorem list_artifacts_limit_bound (c : Bool) (coll : List StoredArtifact)
    (q : Option String) (f : Option Bool) (lim : Nat)
    (res : List PublicArtifact)
    (h : list_artifacts c coll q f lim = Except.ok res) :
    res.length ≤ lim := by
  cases c with
  | false => simp [list_artifacts] at h
  | true =>
      simp only [list_artifacts] at h
      simp at h
      rw [mapDocs_ok_length _ _ h]
      simp only [get_documents, List.length_take]
      omega

/-- C6 (witness): listing with `limit = 0` over a non-empty collection
returns the empty sequence, of length at most 0. -/
theorem list_artifacts_limit_bound_witness :
    list_artifacts true [wArtifact] none none 0 = Except.ok [] ∧
    ([] : List PublicArtifact).length ≤ 0 :=
  ⟨rfl, list_artifacts_limit_bound true [wArtifact] none none 0 [] rfl⟩

/-- C7 (counterexample): a stored document without a `title` makes the list
operation fail with a 500 — the mapping to the public shape does not
tolerate an absent title, because `PublicArtifact.title` is a required
field. -/
theorem list_missing_title_fails_cex :
    list_artifacts true [noTitleDoc] none none 50 =
      Except.error ⟨500, "Internal Server Error"⟩ := rfl

/-- C7 (amended): for every stored document that has a `title`, the mapping
to the public shape succeeds, and every absent optional field surfaces as
`none`; a document without a title instead fails validation. -/
theorem mkPublicArtifact_ok_of_title (d : StoredArtifact) (t : String)
    (ht : d.title = some t) :
    mkPublicArtifact d =
      Except.ok ⟨d._id, t, d.description, d.image_url, d.period,
        d.collection, d.tags⟩ := by
  simp [mkPublicArtifact, ht]

/-- C7 (witness): `foundDoc` maps to its public shape, absent fields
becoming `none`. -/
theorem mkPublicArtifact_ok_of_title_witness :
    mkPublicArtifact foundDoc =
      Except.ok ⟨"0123456789abcdefabcdef01", "Vase", some "clay", none,
        some "1200", some "Ceramics", some ["clay"]⟩ :=
  mkPublicArtifact_ok_of_title foundDoc "Vase" rfl

/-- C8: for every accessor state and every outcome of listing collection
names, the diagnostic endpoint returns its fixed success shape (backend
always "✅ Running"); a listing failure is rendered inside the `database`
field as its message truncated to at most 50 characters, and a successful
listing surfaces at most its first 10 names. -/
theorem test_database_total_truncated (st : DbState) (u n : Bool) :
    (test_database st u n).backend = "✅ Running" ∧
    (∀ nm e, st = DbState.ready nm (Except.error e) →
      (test_database st u n).database =
        "⚠️  Connected but Error: " ++ strTake 50 e ∧
      (strTake 50 e).length ≤ 50) ∧
    (∀ nm ls, st = DbState.ready nm (Except.ok ls) →
      (test_database st u n).collections = ls.take 10 ∧
      (test_database st u n).database = "✅ Connected & Working") := by
  refine ⟨?_, ?_, ?_⟩
  · cases st with
    | absent => rfl
    | ready nm outcome => cases outcome <;> rfl
  · intro nm e hst
    subst hst
    refine ⟨rfl, ?_⟩
    show (e.data.take 50).length ≤ 50
    simp [List.length_take]
  · intro nm ls hst
    subst hst
    exact ⟨rfl, rfl⟩

/-- C8 (witness): a connected store whose collection listing raises is
reported as a response with the truncated message inside the `database`
field. -/
theorem test_database_total_truncated_witness :
    (test_database (DbState.ready (some "museum") (Except.error "boom"))
        true false).database =
      "⚠️  Connected but Error: " ++ strTake 50 "boom" ∧
    (strTake 50 "boom").length ≤ 50 :=
  (test_database_total_truncated
    (DbState.ready (some "museum") (Except.error "boom")) true false).2.1
    (some "museum") "boom" rfl

/-- C9: when no account with the email exists, signup succeeds and an
immediate signin with the same credentials succeeds, both returning the same
id/name/email triple. -/
theorem signup_signin_roundtrip (coll : List UserDoc)
    (nm em pw newId : String)
    (h : coll.find? (fun u => u.email = em) = none) :
    (signup true coll nm em pw newId).1 = Except.ok ⟨newId, nm, em⟩ ∧
    signin true (signup true coll nm em pw newId).2 em pw =
      Except.ok ⟨newId, nm, em⟩ := by
  have hfind : (coll ++
        [(⟨newId, nm, em, hash_password pw, "user", true⟩ : UserDoc)]).find?
      (fun u => u.email = em) =
      some (⟨newId, nm, em, hash_password pw, "user", true⟩ : UserDoc) := by
    rw [find?_append_left_none _ _ _ h]
    simp [List.find?_cons]
  constructor
  · simp [signup, h]
  · simp [signup, h, signin, hfind]

/-- C9 (witness): signing up "Ann" on an empty collection and signing in
with the same credentials both return the same triple. -/
theorem signup_signin_roundtrip_witness :
    (signup true [] "Ann" "a@x.com" "pw1" "ffffffffffffffffffffffff").1 =
      Except.ok ⟨"ffffffffffffffffffffffff", "Ann", "a@x.com"⟩ ∧
    signin true
        (signup true [] "Ann" "a@x.com" "pw1" "ffffffffffffffffffffffff").2
        "a@x.com" "pw1" =
      Except.ok ⟨"ffffffffffffffffffffffff", "Ann", "a@x.com"⟩ :=
  signup_signin_roundtrip [] "Ann" "a@x.com" "pw1" "ffffffffffffffffffffffff"
    rfl

/-- C10: a call with `q` equal to the empty string builds the same filter,
and returns the same result, as a call with `q` absent. -/
theorem list_empty_q_eq_no_q (c : Bool) (coll : List StoredArtifact)
    (f : Option Bool) (lim : Nat) :
    buildFilter (some "") f = buildFilter none f ∧
    list_artifacts c coll (some "") f lim = list_artifacts c coll none f lim := by
  constructor <;> rfl

end Museum
